import Mathlib

/-!
Verification of the DougHub diagnostic scripts (`diagnose_inbox.py`,
`scan_backups.py`, `list_template_items.py`) against their specification.

The scripts are read-only inspectors of a SQLite database holding a table
`source_items`.  We embed the data model (a row of `source_items`), the
SQL queries the scripts run (GROUP BY status, ORDER BY ... DESC LIMIT n,
the trailing-window and today filters), the Python title-truncation
expression, the per-file error handling of the backup scan, the connection
open modes, and the handle open/close traces.  Timestamps are TEXT values
compared with SQLite's binary collation, embedded as Lean `String`s with
their lexicographic order; `datetime('now', ...)` results are passed as
explicit parameters since the scripts recompute them from the wall clock
on each run.
-/

/-- A row of the `source_items` table.  `title`, `status` and `updatedAt`
are nullable in the data the scripts tolerate (`row[1] or "(no title)"`,
grouping by a possibly-NULL `status`, `row[3] or 'N/A'`). -/
structure SourceItem where
  id : Nat
  title : Option String
  sourceType : String
  sourceName : String
  status : Option String
  createdAt : String
  updatedAt : Option String
deriving Repr, DecidableEq

/-- `SELECT status, COUNT(*) FROM source_items GROUP BY status`
(diagnose_inbox.py line 14, scan_backups.py line 34): one pair per distinct
`status` value (NULL included), with the number of rows carrying it. -/
def statusCounts (rows : List SourceItem) : List (Option String × Nat) :=
  ((rows.map (·.status)).dedup).map
    (fun s => (s, (rows.filter (fun r => r.status = s)).length))

/-- `SELECT COUNT(*) FROM source_items` (diagnose_inbox.py line 18,
scan_backups.py line 44). -/
def totalCount (rows : List SourceItem) : Nat :=
  rows.length

/-- C3: For every database, the total row count reported by countByStatus
equals the sum of the per-status group counts it reports (including rows
whose status is NULL or an unexpected value). -/
theorem statusCounts_sum_eq_totalCount (rows : List SourceItem) :
    ((statusCounts rows).map Prod.snd).sum = totalCount rows := by
  unfold statusCounts totalCount
  have h : ((rows.map (·.status)).dedup.map
      (fun s => (rows.map (·.status)).countP (fun y => y = s))).sum
      = (rows.map (·.status)).length :=
    List.sum_map_count_dedup_eq_length (rows.map (·.status))
  rw [← List.length_map rows (fun x => x.status), ← h, List.map_map]
  apply congrArg List.sum
  apply List.map_congr_left
  intro s _
  show (rows.filter (fun r => r.status = s)).length
      = (rows.map (·.status)).countP (fun y => y = s)
  rw [List.countP_map, List.countP_eq_length_filter]
  rfl

/-- SQLite's binary collation on TEXT values: lexicographic comparison of
the code-point sequences (for valid UTF-8, byte order and code-point order
agree).  Defined as an executable `Bool` so that concrete databases
evaluate inside the kernel. -/
def charListLe : List Char → List Char → Bool
  | [], _ => true
  | _ :: _, [] => false
  | a :: as, b :: bs =>
      if a.val.toNat < b.val.toNat then true
      else if b.val.toNat < a.val.toNat then false
      else charListLe as bs

/-- TEXT comparison `a <= b` under SQLite's binary collation. -/
def textLe (a b : String) : Prop :=
  charListLe a.data b.data = true

instance : DecidableRel textLe :=
  fun a b => inferInstanceAs (Decidable (charListLe a.data b.data = true))

theorem charListLe_total : ∀ (a b : List Char), charListLe a b ∨ charListLe b a
  | [], _ => Or.inl rfl
  | _ :: _, [] => Or.inr rfl
  | a :: as, b :: bs => by
      simp only [charListLe]
      rcases Nat.lt_trichotomy a.val.toNat b.val.toNat with h | h | h
      · simp [h]
      · simp only [h, lt_irrefl, if_false]
        exact charListLe_total as bs
      · simp [h, Nat.lt_asymm h]

theorem charListLe_trans : ∀ {a b c : List Char},
    charListLe a b → charListLe b c → charListLe a c
  | [], _, _, _, _ => rfl
  | _ :: _, [], _, h, _ => by simp [charListLe] at h
  | _ :: _, _ :: _, [], _, h => by simp [charListLe] at h
  | a :: as, b :: bs, c :: cs, h1, h2 => by
      simp only [charListLe] at h1 h2 ⊢
      by_cases hab : a.val.toNat < b.val.toNat
      · by_cases hbc : b.val.toNat < c.val.toNat
        · rw [if_pos (Nat.lt_trans hab hbc)]
        · rw [if_neg hbc] at h2
          by_cases hcb : c.val.toNat < b.val.toNat
          · rw [if_pos hcb] at h2
            exact absurd h2 (by simp)
          · rw [if_pos (show a.val.toNat < c.val.toNat by omega)]
      · rw [if_neg hab] at h1
        by_cases hba : b.val.toNat < a.val.toNat
        · rw [if_pos hba] at h1
          exact absurd h1 (by simp)
        · rw [if_neg hba] at h1
          by_cases hbc : b.val.toNat < c.val.toNat
          · rw [if_pos (show a.val.toNat < c.val.toNat by omega)]
          · rw [if_neg hbc] at h2
            by_cases hcb : c.val.toNat < b.val.toNat
            · rw [if_pos hcb] at h2
              exact absurd h2 (by simp)
            · rw [if_neg hcb] at h2
              rw [if_neg (show ¬ a.val.toNat < c.val.toNat by omega),
                if_neg (show ¬ c.val.toNat < a.val.toNat by omega)]
              exact charListLe_trans h1 h2

theorem textLe_total (a b : String) : textLe a b ∨ textLe b a := by
  simpa [textLe] using charListLe_total a.data b.data

theorem textLe_trans {a b c : String} :
    textLe a b → textLe b c → textLe a c :=
  charListLe_trans

/-- `ORDER BY createdAt DESC`: row `a` may precede row `b` when
`b.createdAt <= a.createdAt`. -/
def createdDesc (a b : SourceItem) : Prop :=
  textLe b.createdAt a.createdAt

instance : DecidableRel createdDesc :=
  fun a b => inferInstanceAs (Decidable (textLe b.createdAt a.createdAt))

instance : IsTotal SourceItem createdDesc :=
  ⟨fun a b => textLe_total b.createdAt a.createdAt⟩

instance : IsTrans SourceItem createdDesc :=
  ⟨fun _ _ _ h1 h2 => textLe_trans h2 h1⟩

/-- SQLite comparison with NULL for ordering purposes: NULL sorts below
every TEXT value, so `ORDER BY updatedAt DESC` puts NULLs last. -/
def nullsLe (a b : Option String) : Prop :=
  match a, b with
  | none, _ => True
  | some _, none => False
  | some x, some y => textLe x y

instance : DecidableRel nullsLe := fun a b =>
  match a, b with
  | none, _ => isTrue trivial
  | some _, none => isFalse (fun h => h)
  | some x, some y => inferInstanceAs (Decidable (textLe x y))

theorem nullsLe_total (a b : Option String) : nullsLe a b ∨ nullsLe b a := by
  cases a <;> cases b <;> simp [nullsLe]
  exact textLe_total _ _

theorem nullsLe_trans {a b c : Option String} :
    nullsLe a b → nullsLe b c → nullsLe a c := by
  cases a <;> cases b <;> cases c <;> simp [nullsLe]
  exact fun h1 h2 => textLe_trans h1 h2

/-- `ORDER BY updatedAt DESC` (diagnose_inbox.py line 45). -/
def updatedDesc (a b : SourceItem) : Prop :=
  nullsLe b.updatedAt a.updatedAt

instance : DecidableRel updatedDesc :=
  fun a b => inferInstanceAs (Decidable (nullsLe b.updatedAt a.updatedAt))

instance : IsTotal SourceItem updatedDesc :=
  ⟨fun a b => nullsLe_total b.updatedAt a.updatedAt⟩

instance : IsTrans SourceItem updatedDesc :=
  ⟨fun _ _ _ h1 h2 => nullsLe_trans h2 h1⟩

/-- `SELECT ... FROM source_items WHERE status = <status> ORDER BY createdAt
DESC LIMIT <lim>`: the inbox listings of diagnose_inbox.py lines 23-29
(status 'inbox', limit 15) and scan_backups.py lines 48-54 (status 'inbox',
limit 5). -/
def recentByStatus (rows : List SourceItem) (status : String) (lim : Nat) :
    List SourceItem :=
  ((rows.filter (fun r => r.status = some status)).insertionSort createdDesc).take lim

/-- diagnose_inbox.py lines 41-47: the curated listing,
`WHERE status = 'curated' ORDER BY updatedAt DESC LIMIT 10`. -/
def curatedQuery (rows : List SourceItem) : List SourceItem :=
  ((rows.filter (fun r => r.status = some "curated")).insertionSort updatedDesc).take 10

/-- A `... ORDER BY key DESC LIMIT n` result is sorted for the key's
descending relation and has at most `n` elements. -/
theorem sort_take_sorted_and_bounded (r : SourceItem → SourceItem → Prop)
    [DecidableRel r] [IsTotal SourceItem r] [IsTrans SourceItem r]
    (l : List SourceItem) (n : Nat) :
    List.Sorted r ((l.insertionSort r).take n)
      ∧ ((l.insertionSort r).take n).length ≤ n := by
  constructor
  · exact List.Pairwise.sublist (List.take_sublist n _) (List.sorted_insertionSort r l)
  · rw [List.length_take]
    exact min_le_left _ _

/-- Two curated rows where creation order and update order disagree:
row 6 was created later (createdAt "2025-09-02") but updated earlier
(updatedAt "2025-09-03") than row 7 (createdAt "2025-09-01",
updatedAt "2025-09-05"). -/
def curatedRowA : SourceItem :=
  ⟨6, some "alpha", "web", "w", some "curated", "2025-09-02", some "2025-09-03"⟩

def curatedRowB : SourceItem :=
  ⟨7, some "beta", "web", "w", some "curated", "2025-09-01", some "2025-09-05"⟩

/-- C4 counterexample: the curated listing (diagnose_inbox.py lines 41-47)
orders by `updatedAt DESC`, not by `createdAt`; on the two rows above the
produced sequence is strictly increasing in `createdAt`, so the claim that
every `recentByStatus` listing is non-increasing in `createdAt` fails. -/
theorem curatedListing_not_sorted_by_createdAt :
    ¬ List.Sorted createdDesc (curatedQuery [curatedRowA, curatedRowB]) := by
  decide

/-- C4 amended: every status-filtered recent-item listing is sorted
non-increasing by its own ORDER BY key (createdAt for the inbox listings,
updatedAt for the curated listing) and has length at most the requested
limit. -/
theorem recentListings_sorted_and_bounded (rows : List SourceItem)
    (status : String) (lim : Nat) :
    (List.Sorted createdDesc (recentByStatus rows status lim)
      ∧ (recentByStatus rows status lim).length ≤ lim)
    ∧ (List.Sorted updatedDesc (curatedQuery rows)
      ∧ (curatedQuery rows).length ≤ 10) :=
  ⟨sort_take_sorted_and_bounded createdDesc _ lim,
   sort_take_sorted_and_bounded updatedDesc _ 10⟩

/-- The title display expression shared by diagnose_inbox.py (lines 35, 53,
85, widths 50/40/35) and scan_backups.py (line 59, width 40):
`(t[:w] + "...") if t and len(t) > w else t or "(no title)"`.
Python truthiness of a string is non-emptiness; `len` and slicing count
code points, embedded as `data.length` and `data.take`. -/
def displayTitle (w : Nat) (t : Option String) : String :=
  match t with
  | none => "(no title)"
  | some s =>
      if s.data.length ≠ 0 ∧ w < s.data.length then ⟨s.data.take w⟩ ++ "..."
      else if s.data.length ≠ 0 then s else "(no title)"

/-- list_template_items.py line 33 (and line 44):
`row[1][:50] if row[1] else '(no title)'` — truncation without an
ellipsis marker. -/
def displayTitleTemplate (t : Option String) : String :=
  match t with
  | none => "(no title)"
  | some s => if s.data.length ≠ 0 then ⟨s.data.take 50⟩ else "(no title)"

/-- A 51-character title, one character beyond the configured width 50. -/
def longTitle : String :=
  ⟨List.replicate 51 'a'⟩

/-- C5 counterexample: at width 50 a 51-character title is displayed as its
first 50 characters followed by "..." — a 53-character string, which cannot
be a prefix of the 51-character original; and a present-but-empty title is
displayed as the placeholder, not unmodified. -/
theorem displayTitle_counterexample :
    (¬ ∃ u : List Char, (displayTitle 50 (some longTitle)).data ++ u = longTitle.data)
    ∧ displayTitle 50 (some "") = "(no title)" := by
  constructor
  · rintro ⟨u, hu⟩
    have hlen := congrArg List.length hu
    rw [List.length_append] at hlen
    have h1 : (displayTitle 50 (some longTitle)).data.length = 53 := by decide
    have h2 : longTitle.data.length = 51 := by decide
    omega
  · rfl

/-- C5 amended: for a present, non-empty title longer than the width `w` the
display is the first `w` characters of the title (a prefix of the original)
followed by the three-character ellipsis, so its length is `w + 3`; a
present, non-empty title of length at most `w` is displayed unmodified; an
absent or empty title is displayed as the placeholder. -/
theorem displayTitle_spec (w : Nat) (s : String) :
    (s.data.length ≠ 0 → w < s.data.length →
        (displayTitle w (some s)).data = s.data.take w ++ "...".data
        ∧ (displayTitle w (some s)).data.length = w + 3
        ∧ ∃ u : List Char, s.data.take w ++ u = s.data)
    ∧ (s.data.length ≠ 0 → s.data.length ≤ w → displayTitle w (some s) = s)
    ∧ displayTitle w none = "(no title)"
    ∧ displayTitle w (some "") = "(no title)" := by
  refine ⟨fun h0 hw => ?_, fun h0 hw => ?_, rfl, ?_⟩
  · have hcond : s.data.length ≠ 0 ∧ w < s.data.length := ⟨h0, hw⟩
    have hd : (displayTitle w (some s)).data = s.data.take w ++ "...".data := by
      show ((if s.data.length ≠ 0 ∧ w < s.data.length then
          (⟨s.data.take w⟩ : String) ++ "..." else
          if s.data.length ≠ 0 then s else "(no title)")).data
          = s.data.take w ++ "...".data
      rw [if_pos hcond]
      cases s with
      | mk d => rfl
    refine ⟨hd, ?_, ⟨s.data.drop w, List.take_append_drop w s.data⟩⟩
    rw [hd, List.length_append, List.length_take,
      Nat.min_eq_left (Nat.le_of_lt hw)]
    rfl
  · show (if s.data.length ≠ 0 ∧ w < s.data.length then
        (⟨s.data.take w⟩ : String) ++ "..." else
        if s.data.length ≠ 0 then s else "(no title)") = s
    rw [if_neg (by omega), if_pos h0]
  · rfl

/-- C10: a present-but-empty title is displayed exactly like an absent
(NULL) title: as the fixed placeholder "(no title)", in all three scripts'
display expressions. -/
theorem emptyTitle_eq_nullTitle_placeholder (w : Nat) :
    displayTitle w (some "") = "(no title)"
    ∧ displayTitle w none = "(no title)"
    ∧ displayTitleTemplate (some "") = "(no title)"
    ∧ displayTitleTemplate none = "(no title)" :=
  ⟨rfl, rfl, rfl, rfl⟩

/-- Witness for `displayTitle_spec`: width 1 with title "ab" exercises the
truncation branch, width 5 with title "ab" the unmodified branch. -/
theorem displayTitle_spec_witness :
    ((displayTitle 1 (some "ab")).data = "ab".data.take 1 ++ "...".data
      ∧ (displayTitle 1 (some "ab")).data.length = 1 + 3
      ∧ ∃ u : List Char, "ab".data.take 1 ++ u = "ab".data)
    ∧ displayTitle 5 (some "ab") = "ab" :=
  ⟨(displayTitle_spec 1 "ab").1 (by decide) (by decide),
   (displayTitle_spec 5 "ab").2.1 (by decide) (by decide)⟩

/-- diagnose_inbox.py lines 59-64: `SELECT status, COUNT(*) FROM
source_items WHERE createdAt >= datetime('now', '-14 days') GROUP BY
status`.  The string `datetime('now', '-14 days')` is recomputed from the
wall clock on each run, never stored; it enters the embedding as the
explicit `cutoff` argument. -/
def recentWithinWindow (rows : List SourceItem) (cutoff : String) :
    List (Option String × Nat) :=
  statusCounts (rows.filter (fun r => textLe cutoff r.createdAt))

/-- Restricting two successive filters to a single conjunctive filter. -/
theorem window_status_filter_length (rows : List SourceItem) (cutoff : String)
    (s : Option String) :
    ((rows.filter (fun r => textLe cutoff r.createdAt)).filter
        (fun r => r.status = s)).length
      = (rows.filter (fun r => r.status = s ∧ textLe cutoff r.createdAt)).length := by
  rw [List.filter_filter]
  apply congrArg List.length
  apply List.filter_congr
  intro a _
  simp [Bool.and_comm]

/-- C6: the 14-day-window report contains the pair `(s, n)` exactly when
some row carries status `s` inside the window (`createdAt >= cutoff`,
inclusive), and `n` is the number of such rows — i.e. it is exactly the
in-window rows grouped by status. -/
theorem recentWithinWindow_exact (rows : List SourceItem) (cutoff : String)
    (s : Option String) (n : Nat) :
    (s, n) ∈ recentWithinWindow rows cutoff ↔
      ((∃ r ∈ rows, r.status = s ∧ textLe cutoff r.createdAt)
        ∧ n = (rows.filter
            (fun r => r.status = s ∧ textLe cutoff r.createdAt)).length) := by
  unfold recentWithinWindow statusCounts
  rw [List.mem_map]
  constructor
  · rintro ⟨a, ha, heq⟩
    simp only [Prod.mk.injEq] at heq
    obtain ⟨rfl, rfl⟩ := heq
    rcases List.mem_map.mp (List.mem_dedup.mp ha) with ⟨r, hr, hrs⟩
    rcases (List.mem_filter.mp hr) with ⟨hrr, hrc⟩
    refine ⟨⟨r, hrr, hrs, of_decide_eq_true hrc⟩, ?_⟩
    exact window_status_filter_length rows cutoff a
  · rintro ⟨⟨r, hr, hrs, hrc⟩, rfl⟩
    refine ⟨s, ?_, ?_⟩
    · exact List.mem_dedup.mpr (List.mem_map.mpr
        ⟨r, List.mem_filter.mpr ⟨hr, decide_eq_true hrc⟩, hrs⟩)
    · rw [window_status_filter_length rows cutoff s]

/-- SQLite `date(x)` on an ISO-8601-like TEXT timestamp
(`YYYY-MM-DD HH:MM:SS`): its leading 10-code-point date component. -/
def dateOf (s : String) : String :=
  ⟨s.data.take 10⟩

/-- diagnose_inbox.py lines 74-79: `SELECT ... FROM source_items WHERE
date(createdAt) = date('now') ORDER BY createdAt DESC` — with no LIMIT
clause.  `date('now')` is the invocation date, passed as `today`. -/
def todayItems (rows : List SourceItem) (today : String) : List SourceItem :=
  (rows.filter (fun r => dateOf r.createdAt = today)).insertionSort createdDesc

/-- A row created on 2025-10-12, used to populate arbitrarily large
single-day databases. -/
def todayRow : SourceItem :=
  ⟨0, some "t", "web", "w", some "inbox", "2025-10-12 09:00:00", none⟩

/-- C9 counterexample: the today listing (diagnose_inbox.py lines 74-79)
has no LIMIT, so no fixed bound caps the number of printed rows: for every
proposed bound `k`, a database of `k + 1` rows created on the invocation
date makes the listing exceed it. -/
theorem todayListing_not_bounded :
    ¬ ∃ k : Nat, ∀ (rows : List SourceItem) (today : String),
        (todayItems rows today).length ≤ k := by
  rintro ⟨k, hk⟩
  have h1 : (todayItems (List.replicate (k + 1) todayRow) "2025-10-12").length
      = k + 1 := by
    unfold todayItems
    rw [List.length_insertionSort, ← List.countP_eq_length_filter,
      List.countP_replicate, if_pos (by decide)]
  have h2 := hk (List.replicate (k + 1) todayRow) "2025-10-12"
  omega

/-- C9 amended: the inbox and curated listings are bounded (at most the
SQL LIMIT of 15 resp. 10 rows) and sorted most-recent-first by their ORDER
BY key; the today listing is sorted most-recent-first by createdAt but
unbounded — it contains every row whose creation date equals the
invocation date. -/
theorem reportListings_spec (rows : List SourceItem) (status : String)
    (lim : Nat) (today : String) :
    ((recentByStatus rows status lim).length ≤ lim
      ∧ List.Sorted createdDesc (recentByStatus rows status lim))
    ∧ ((curatedQuery rows).length ≤ 10
      ∧ List.Sorted updatedDesc (curatedQuery rows))
    ∧ (List.Sorted createdDesc (todayItems rows today)
      ∧ ∀ r : SourceItem,
          r ∈ todayItems rows today ↔ r ∈ rows ∧ dateOf r.createdAt = today) := by
  refine ⟨⟨(sort_take_sorted_and_bounded createdDesc _ lim).2,
      (sort_take_sorted_and_bounded createdDesc _ lim).1⟩,
    ⟨(sort_take_sorted_and_bounded updatedDesc _ 10).2,
      (sort_take_sorted_and_bounded updatedDesc _ 10).1⟩,
    List.sorted_insertionSort createdDesc _, fun r => ?_⟩
  unfold todayItems
  rw [List.mem_insertionSort, List.mem_filter]
  simp

/-- One file of the backup set as the scan encounters it
(scan_backups.py lines 17-64):
`unreadable` — `sqlite3.connect` itself raises (no handle obtained);
`corrupt` — connect succeeds but the first query raises (e.g.
"file is not a database");
`noTable` — a SQLite file whose sqlite_master has no `source_items`;
`valid rows` — a database with the `source_items` rows. -/
inductive FileContent where
  | unreadable : String → FileContent
  | corrupt : String → FileContent
  | noTable : FileContent
  | valid : List SourceItem → FileContent
deriving Repr, DecidableEq

/-- The per-file part of the scan report: an inline error line (except
branch, line 64), the absence line (line 29), or the status counts, total
and limit-5 inbox sample (lines 34-60). -/
inductive FileReport where
  | errorLine : String → FileReport
  | tableMissing : FileReport
  | counts : List (Option String × Nat) → Nat → List SourceItem → FileReport
deriving Repr, DecidableEq

/-- The body of the per-file `try` block (scan_backups.py lines 23-62):
connect, check `sqlite_master` for the table, then the three queries; any
raised exception surfaces as `Except.error`. -/
def queryFile : FileContent → Except String FileReport
  | FileContent.unreadable e => Except.error e
  | FileContent.corrupt e => Except.error e
  | FileContent.noTable => Except.ok FileReport.tableMissing
  | FileContent.valid rows => Except.ok
      (FileReport.counts (statusCounts rows) (totalCount rows)
        (recentByStatus rows "inbox" 5))

/-- The `try`/`except` around the block: an exception becomes the inline
`Error:` line for that file (line 63-64) and the loop moves on. -/
def processFile (f : FileContent) : FileReport :=
  match queryFile f with
  | Except.ok r => r
  | Except.error e => FileReport.errorLine e

/-- scan_backups.py lines 17-64: every backup file is processed in turn,
each yielding exactly one report. -/
def scanBackupSet (files : List FileContent) : List FileReport :=
  files.map processFile

/-- C7: the scan never raises (it is a total function into per-file
reports, one per file); a file whose open or query fails contributes
exactly one inline error line while all files before and after it are
processed exactly as they would be alone; and on a valid + missing-table +
corrupt triple it returns the correct counts report, the absence line and
the error line. -/
theorem scanBackupSet_isolates_failures (files : List FileContent)
    (e e2 : String) (pre post : List FileContent) (rows : List SourceItem) :
    (scanBackupSet files).length = files.length
    ∧ scanBackupSet (pre ++ FileContent.corrupt e :: post)
        = scanBackupSet pre ++ FileReport.errorLine e :: scanBackupSet post
    ∧ scanBackupSet (pre ++ FileContent.unreadable e2 :: post)
        = scanBackupSet pre ++ FileReport.errorLine e2 :: scanBackupSet post
    ∧ scanBackupSet
        [FileContent.valid rows, FileContent.noTable, FileContent.corrupt e]
        = [FileReport.counts (statusCounts rows) (totalCount rows)
            (recentByStatus rows "inbox" 5),
           FileReport.tableMissing, FileReport.errorLine e] := by
  refine ⟨List.length_map _ _, ?_, ?_, rfl⟩ <;>
    simp [scanBackupSet, processFile, queryFile]

/-- Database-handle events of one script run: handle `i` opened / closed. -/
inductive Event where
  | openH : Nat → Event
  | closeH : Nat → Event
deriving Repr, DecidableEq

/-- Handle events emitted while scan_backups.py processes backup file `i`
(lines 22-64): a failing connect emits nothing; after a successful connect
the happy and missing-table paths reach `conn.close()` (lines 30, 62), but
the `except` branch (lines 63-64) only prints — it never closes the
handle obtained at line 23. -/
def fileEvents (i : Nat) : FileContent → List Event
  | FileContent.unreadable _ => []
  | FileContent.corrupt _ => [Event.openH i]
  | FileContent.noTable => [Event.openH i, Event.closeH i]
  | FileContent.valid _ => [Event.openH i, Event.closeH i]

/-- The handle trace of the whole backup loop, file by file. -/
def scanTrace (files : List FileContent) : List Event :=
  (files.enum.map (fun p => fileEvents p.1 p.2)).flatten

/-- Handle events of diagnose_inbox.py: the default-mode connect at line 9
always yields a handle; `conn.close()` (line 88) runs only if every query
succeeded, i.e. only when the `source_items` table exists. -/
def diagnoseEvents (hasTable : Bool) : List Event :=
  if hasTable then [Event.openH 0, Event.closeH 0] else [Event.openH 0]

/-- C8 counterexample: scanning a single corrupt file opens a handle that
is never closed — the `except` branch reports the error and moves to the
next file without `conn.close()`. -/
theorem corruptFile_handle_not_closed :
    Event.openH 0 ∈ scanTrace [FileContent.corrupt "file is not a database"]
    ∧ Event.closeH 0 ∉ scanTrace [FileContent.corrupt "file is not a database"] := by
  constructor
  · simp [scanTrace, fileEvents, List.enum]
  · simp [scanTrace, fileEvents, List.enum]

/-- C8 amended: every handle opened on a non-error path (valid file or
missing-table file) is closed within that file's events, before the next
file is processed; diagnose_inbox.py closes its handle on the success
path.  On the error path after a successful open the handle is not
explicitly closed. -/
theorem handles_closed_on_nonerror_paths (i : Nat) (f : FileContent)
    (hf : ∀ m : String, f ≠ FileContent.corrupt m) :
    (Event.openH i ∈ fileEvents i f → Event.closeH i ∈ fileEvents i f)
    ∧ diagnoseEvents true = [Event.openH 0, Event.closeH 0] := by
  refine ⟨?_, rfl⟩
  cases f with
  | unreadable m => intro h; simp [fileEvents] at h
  | corrupt m => exact absurd rfl (hf m)
  | noTable => intro _; simp [fileEvents]
  | valid rows => intro _; simp [fileEvents]

/-- Witness for `handles_closed_on_nonerror_paths` at a concrete
missing-table file. -/
theorem handles_closed_witness :
    Event.closeH 0 ∈ fileEvents 0 FileContent.noTable
    ∧ diagnoseEvents true = [Event.openH 0, Event.closeH 0] :=
  ⟨(handles_closed_on_nonerror_paths 0 FileContent.noTable
      (fun _ h => FileContent.noConfusion h)).1 (by decide),
   (handles_closed_on_nonerror_paths 0 FileContent.noTable
      (fun _ h => FileContent.noConfusion h)).2⟩

/-- SQLite connection open modes as the scripts use them:
`sqlite3.connect(path)` defaults to read-write-create (a missing path gets
a fresh empty database file); `sqlite3.connect("file:...?mode=ro",
uri=True)` is read-only and raises on a missing path. -/
inductive OpenMode where
  | readOnly
  | readWriteCreate
deriving Repr, DecidableEq

/-- diagnose_inbox.py line 9: `sqlite3.connect(db_path)` — no mode given,
so the default read-write-create mode. -/
def diagnoseConnectMode : OpenMode :=
  OpenMode.readWriteCreate

/-- scan_backups.py lines 23 and 76: `sqlite3.connect(f"file:...?mode=ro",
uri=True)`. -/
def scanConnectMode : OpenMode :=
  OpenMode.readOnly

/-- list_template_items.py line 8: `sqlite3.connect(f"file:...?mode=ro",
uri=True)`. -/
def templateConnectMode : OpenMode :=
  OpenMode.readOnly

/-- The content of a database file: `none` when the `source_items` table is
absent (e.g. a freshly created empty database), otherwise its rows. -/
abbrev DbFile := Option (List SourceItem)

/-- The effect of `sqlite3.connect` on the target path (`none` = no file
there).  Read-only mode never touches the file — a missing path raises
instead of creating.  Default mode creates an empty database (no
`source_items` table) at a missing path and leaves an existing file as it
is; every statement the scripts subsequently execute is a SELECT, which
writes nothing. -/
def connectFsEffect (m : OpenMode) (f : Option DbFile) : Option DbFile :=
  match m, f with
  | OpenMode.readOnly, f => f
  | OpenMode.readWriteCreate, none => some none
  | OpenMode.readWriteCreate, some db => some db

/-- C1 counterexample: diagnose_inbox.py does not open its connection
read-only, and running it against a missing path changes the filesystem —
a new empty database file appears where there was none. -/
theorem diagnose_not_readonly_creates_file :
    diagnoseConnectMode ≠ OpenMode.readOnly
    ∧ connectFsEffect diagnoseConnectMode none ≠ none := by
  constructor
  · intro h
    exact OpenMode.noConfusion h
  · intro h
    exact Option.noConfusion h

/-- C1 amended: scan_backups.py and list_template_items.py open every
connection read-only and leave the target untouched in every case;
diagnose_inbox.py uses the default read-write-create mode, which leaves an
existing file's content unchanged (only SELECTs are executed) but creates
a new empty database file when the target path does not exist. -/
theorem inspection_readonly_spec (f : Option DbFile) (db : DbFile) :
    scanConnectMode = OpenMode.readOnly
    ∧ templateConnectMode = OpenMode.readOnly
    ∧ connectFsEffect scanConnectMode f = f
    ∧ connectFsEffect templateConnectMode f = f
    ∧ connectFsEffect diagnoseConnectMode (some db) = some db
    ∧ connectFsEffect diagnoseConnectMode none = some none :=
  ⟨rfl, rfl, rfl, rfl, rfl, rfl⟩

/-- Python's f-string rendering of a nullable column: `None` prints as
"None". -/
def showOptStr : Option String → String
  | none => "None"
  | some s => s

/-- `row or 'N/A'` (diagnose_inbox.py line 55): Python or-truthiness, so
both NULL and the empty string render as "N/A". -/
def orNA : Option String → String
  | none => "N/A"
  | some s => if s.data.length ≠ 0 then s else "N/A"

/-- `"=" * 60`, the separator/banner line all three scripts print. -/
def sep60 : String :=
  ⟨List.replicate 60 '='⟩

/-- The report body of diagnose_inbox.py (lines 13-90) on a database whose
`source_items` table exists: status counts, the inbox listing (width-50
titles, `Created:` sublines), the curated listing (width-40 titles,
`Created/Updated` sublines), the 14-day breakdown, the today listing
(width-35 titles), then the separator and the closing banner. -/
def diagnoseReport (rows : List SourceItem) (cutoff today : String) :
    List String :=
  ["=== STATUS COUNTS ==="]
  ++ (statusCounts rows).map
      (fun p => "  " ++ showOptStr p.1 ++ ": " ++ toString p.2)
  ++ ["  TOTAL: " ++ toString (totalCount rows), "=== CURRENT INBOX ITEMS ==="]
  ++ (if (recentByStatus rows "inbox" 15).isEmpty
      then ["  (No inbox items found)"]
      else (recentByStatus rows "inbox" 15).enum.flatMap (fun p =>
        ["  " ++ toString (p.1 + 1) ++ ". [" ++ p.2.sourceType ++ "] "
          ++ displayTitle 50 p.2.title,
         "     Created: " ++ p.2.createdAt]))
  ++ ["=== RECENTLY CURATED (may have been inbox) ==="]
  ++ (if (curatedQuery rows).isEmpty
      then ["  (No curated items)"]
      else (curatedQuery rows).enum.flatMap (fun p =>
        ["  " ++ toString (p.1 + 1) ++ ". [" ++ p.2.sourceType ++ "] "
          ++ displayTitle 40 p.2.title,
         "     Created: " ++ p.2.createdAt ++ ", Updated: " ++ orNA p.2.updatedAt]))
  ++ ["=== ITEMS CREATED LAST 14 DAYS (by status) ==="]
  ++ (if (recentWithinWindow rows cutoff).isEmpty
      then ["  (No items in last 14 days)"]
      else (recentWithinWindow rows cutoff).map
        (fun p => "  " ++ showOptStr p.1 ++ ": " ++ toString p.2))
  ++ ["=== ITEMS CREATED TODAY ==="]
  ++ (if (todayItems rows today).isEmpty
      then ["  (No items created today)"]
      else (todayItems rows today).enum.map (fun p =>
        "  " ++ toString (p.1 + 1) ++ ". [" ++ showOptStr p.2.status ++ "]["
          ++ p.2.sourceType ++ "] " ++ displayTitle 35 p.2.title))
  ++ [sep60]
  ++ ["Diagnostic complete."]

/-- diagnose_inbox.py, the whole run.  The default-mode connect (line 9)
succeeds even at a missing path by creating an empty database, so both a
missing file and a missing `source_items` table make the very first query
(line 14) raise `no such table: source_items`; with no `try`/`except` the
exception is uncaught and the run dies before the closing banner
(`Except.error`).  Otherwise the full report is printed. -/
def diagnoseInboxRun (f : Option DbFile) (cutoff today : String) :
    Except String (List String) :=
  match f with
  | none => Except.error "no such table: source_items"
  | some none => Except.error "no such table: source_items"
  | some (some rows) => Except.ok (diagnoseReport rows cutoff today)

/-- Rendering of one backup file's report lines
(scan_backups.py lines 27-64). -/
def renderReport : FileReport → List String
  | FileReport.errorLine e => ["  Error: " ++ e]
  | FileReport.tableMissing => ["  (source_items table not found)"]
  | FileReport.counts cs total inbox =>
      (if cs.isEmpty then ["  Status counts: (empty table)"]
       else ["  Status counts: " ++ String.intercalate ", "
          (cs.map (fun p => showOptStr p.1 ++ ":" ++ toString p.2))])
      ++ ["  Total items: " ++ toString total]
      ++ (if inbox.isEmpty then []
          else "  Inbox items:" ::
            inbox.map (fun r =>
              "    - [" ++ r.sourceType ++ "] " ++ displayTitle 40 r.title))

/-- Rendering of the template-database section (scan_backups.py
lines 75-90), also guarded by its own `try`/`except`. -/
def renderTemplateReport : FileReport → List String
  | FileReport.errorLine e => ["  Error: " ++ e]
  | FileReport.tableMissing => ["  (source_items table not found)"]
  | FileReport.counts cs total _ =>
      ["  Total items: " ++ toString total]
      ++ (if cs.isEmpty then []
          else ["  By status: " ++ String.intercalate ", "
            (cs.map (fun p => showOptStr p.1 ++ ":" ++ toString p.2))])

/-- scan_backups.py, the whole run.  A missing backups directory makes the
glob empty (`files = []`) and is only reported via the `Exists:` line;
per-file failures are absorbed by `processFile`; the template section runs
only when that file exists and has its own `try`/`except`.  Every path
reaches the separator and the closing banner (lines 92-93). -/
def scanBackupsRun (dirExists : Bool) (files : List FileContent)
    (template : Option FileContent) : List String :=
  ["Exists: " ++ (if dirExists then "True" else "False"),
   "Found " ++ toString files.length ++ " backup database files"]
  ++ (scanBackupSet files).flatMap renderReport
  ++ (match template with
      | none => []
      | some f => renderTemplateReport (processFile f))
  ++ [sep60]
  ++ ["Backup scan complete."]

/-- The report body of list_template_items.py (lines 12-52): the inbox
listing (unlimited, createdAt DESC), the processed and curated listings
(width-50 truncation without ellipsis), the schema version, then the
closing separator line. -/
def listTemplateReport (rows : List SourceItem) (version : Nat) :
    List String :=
  ["=== INBOX ITEMS (10 total) ==="]
  ++ ((rows.filter (fun r => r.status = some "inbox")).insertionSort
        createdDesc).enum.flatMap (fun p =>
      [toString (p.1 + 1) ++ ". ID: " ++ toString p.2.id,
       "   Title: " ++ showOptStr p.2.title,
       "   Type: " ++ p.2.sourceType ++ " / " ++ p.2.sourceName,
       "   Created: " ++ p.2.createdAt])
  ++ ["=== PROCESSED ITEMS (1 total) ==="]
  ++ (rows.filter (fun r => r.status = some "processed")).flatMap (fun r =>
      ["  " ++ displayTitleTemplate r.title,
       "    ID: " ++ toString r.id ++ ", Type: " ++ r.sourceType])
  ++ ["=== CURATED ITEMS (2 total) ==="]
  ++ (rows.filter (fun r => r.status = some "curated")).flatMap (fun r =>
      ["  " ++ displayTitleTemplate r.title,
       "    ID: " ++ toString r.id ++ ", Type: " ++ r.sourceType])
  ++ ["Schema version: " ++ toString version]
  ++ [sep60]

/-- list_template_items.py, the whole run.  The read-only connect (line 8)
raises on a missing file; with no `try`/`except` a missing file or missing
table kills the run before the closing separator (line 52). -/
def listTemplateRun (f : Option DbFile) (version : Nat) :
    Except String (List String) :=
  match f with
  | none => Except.error "unable to open database file"
  | some none => Except.error "no such table: source_items"
  | some (some rows) => Except.ok (listTemplateReport rows version)

/-- C2 counterexample: diagnose_inbox.py run against a missing database
file terminates with an uncaught `no such table: source_items` error — no
closing banner is printed (and likewise when the file exists but lacks the
table). -/
theorem diagnose_missing_file_no_banner :
    diagnoseInboxRun none "2025-09-28 00:00:00" "2025-10-12"
      = Except.error "no such table: source_items"
    ∧ diagnoseInboxRun (some none) "2025-09-28 00:00:00" "2025-10-12"
      = Except.error "no such table: source_items" :=
  ⟨rfl, rfl⟩

/-- The last line of a list ending in a known singleton. -/
theorem getLast_append_singleton (l : List String) (a : String) :
    (l ++ [a]).getLast? = some a :=
  List.getLast?_concat l

/-- C2 amended: scan_backups.py completes with its closing banner for every
input condition (missing directory, empty set, failing files); the
single-file scripts diagnose_inbox.py and list_template_items.py print
their closing banner when the database file exists and has the
`source_items` table, but terminate with an uncaught error — no banner —
when the file or the table is missing. -/
theorem runs_complete_with_banner (dirExists : Bool)
    (files : List FileContent) (template : Option FileContent)
    (rows : List SourceItem) (cutoff today : String) (version : Nat) :
    (scanBackupsRun dirExists files template).getLast?
        = some "Backup scan complete."
    ∧ (diagnoseInboxRun (some (some rows)) cutoff today
          = Except.ok (diagnoseReport rows cutoff today)
        ∧ (diagnoseReport rows cutoff today).getLast?
          = some "Diagnostic complete.")
    ∧ (listTemplateRun (some (some rows)) version
          = Except.ok (listTemplateReport rows version)
        ∧ (listTemplateReport rows version).getLast? = some sep60)
    ∧ diagnoseInboxRun none cutoff today
        = Except.error "no such table: source_items"
    ∧ listTemplateRun none version
        = Except.error "unable to open database file" := by
  refine ⟨?_, ⟨rfl, ?_⟩, ⟨rfl, ?_⟩, rfl, rfl⟩
  · unfold scanBackupsRun
    exact getLast_append_singleton _ _
  · unfold diagnoseReport
    exact getLast_append_singleton _ _
  · unfold listTemplateReport
    exact getLast_append_singleton _ _
